import Mathlib

set_option maxRecDepth 100000

/-!
# Verification of the hydrogen python device-simulation examples

Shallow embedding of the device simulation code under `examples/python`
(`advanced_camera.py`, `guider_example.py`, `custom_switch.py`,
`custom_telescope.py`).  Pure python methods become Lean functions on an
explicit state record; the background threads (`update_loop`,
`exposure_process`) become step functions applied once per scheduling
tick; python floats are modelled as exact rationals; event emission is an
append to an explicit event list; a python exception escaping a handler is
modelled with `Except.error`.
-/

namespace Hydrogen

/-- A python value appearing in a command parameter map.  Only the shapes
exercised by the examples are modelled: numbers, strings and booleans.
`pyFloat` below models python's `float(...)` conversion; string arguments
are only instantiated with non-numeric text, for which `float` raises. -/
inductive PyVal where
  | num (q : ℚ)
  | str (s : String)
  | bool (b : Bool)
deriving DecidableEq, Repr

/-- Python `float(v)`: numbers convert to themselves, `True`/`False` to 1/0,
and a (non-numeric) string raises `ValueError`, modelled as `none`. -/
def pyFloat : PyVal → Option ℚ
  | .num q => some q
  | .bool b => some (if b then 1 else 0)
  | .str _ => none

/-- Python truthiness of a parameter value. -/
def pyTruthy : PyVal → Bool
  | .num q => q != 0
  | .str s => s != ""
  | .bool b => b

/-- A command parameter map `cmd["parameters"]`. -/
abbrev Params := List (String × PyVal)

/-- Dictionary lookup `params.get(key)` / `key in params`. -/
def lookupParam (ps : Params) (key : String) : Option PyVal :=
  match ps with
  | [] => none
  | (k, v) :: rest => if k = key then some v else lookupParam rest key

/-- Response status set by a handler (`response["status"]`). -/
inductive RStatus where
  | SUCCESS
  | ERROR
deriving DecidableEq, Repr

/-- A command response: the status and the `details["message"]` string
(empty when the handler put no message in the details). The remaining
detail fields (timestamps, metadata, urls) are not needed by any claim
and are abstracted away. -/
structure Response where
  status : RStatus
  message : String
deriving DecidableEq, Repr

/-- Events emitted by the camera via `send_event`, with the payload fields
the claims inspect.  Timestamps are omitted (`get_iso_timestamp` is an
external collaborator). -/
inductive Event where
  | exposureStarted (exposure_time : ℚ)
  | exposureProgress (progress elapsed remaining : ℚ)
  | exposureAborted (exposure_time : ℚ)
  | readingOut
  | exposureComplete (exposure_time : ℚ) (is_light : Bool) (width height : ℕ)
  | coolerChanged (enabled prevEnabled : Bool) (temp prevTemp : ℚ)
deriving DecidableEq, Repr

/-- Control state of the `exposure_process` background thread:
not running (`idle`), inside the progress loop (`exposing`, carrying the
loop's `exposure_time`, `is_light`, and elapsed time), or inside the
readout sleep (`readingOut`, carrying the remaining readout time). -/
inductive ExpPhase where
  | idle
  | exposing (duration : ℚ) (is_light : Bool) (elapsed : ℚ)
  | readingOut (duration : ℚ) (is_light : Bool) (remaining : ℚ)
deriving DecidableEq, Repr

/-- State of an `AdvancedCamera` instance (`advanced_camera.py`).
Fields mirror the attributes set in `__init__`; `prop_exposing`,
`prop_image_ready` and `prop_connected` mirror the property store entries
`"exposing"`, `"image_ready"` and `"connected"` (the other properties are
written together with the like-named attribute and are not separately
tracked).  `image_data` records whether `self.image_data` is non-None.
`phase` is the exposure thread's control state and `events` the emitted
event trace. -/
structure AdvancedCamera where
  width : ℕ
  height : ℕ
  gain : ℕ
  exposure_time : ℚ
  cooler_temp : ℚ
  sensor_temp : ℚ
  cooler_power : ℤ
  cooler_enabled : Bool
  is_exposing : Bool
  image_ready : Bool
  image_data : Bool
  prop_exposing : Bool
  prop_image_ready : Bool
  prop_connected : Bool
  running : Bool
  phase : ExpPhase
  events : List Event
deriving DecidableEq, Repr

namespace AdvancedCamera

/-- `AdvancedCamera.__init__`: the fresh camera state. -/
def init : AdvancedCamera where
  width := 1936
  height := 1096
  gain := 0
  exposure_time := 0
  cooler_temp := 20
  sensor_temp := 20
  cooler_power := 0
  cooler_enabled := false
  is_exposing := false
  image_ready := false
  image_data := false
  prop_exposing := false
  prop_image_ready := false
  prop_connected := false
  running := false
  phase := .idle
  events := []

/-- `AdvancedCamera.start`: sets `running` and the `"connected"` property
and spawns the update loop (the C++ `super().start()` is assumed to
succeed; per the spec, `start()` activates the background tasks). -/
def start (c : AdvancedCamera) : Bool × AdvancedCamera :=
  (true, { c with running := true, prop_connected := true })

/-- `np.sign` on a rational. -/
def qsign (q : ℚ) : ℚ :=
  if 0 < q then 1 else if q < 0 then -1 else 0

/-- One iteration of the `update_loop` body (executed once per 1.0-unit
tick while the device runs).  `int(x)` on the non-negative
`abs(temp_diff) * 10` is the floor.  The `round(...,2)` applied when
mirroring `sensor_temp` into the property store affects only that
property entry, which no claim inspects, so it is not tracked. -/
def update_tick (c : AdvancedCamera) : AdvancedCamera :=
  if c.cooler_enabled then
    -- temp_diff = cooler_temp - sensor_temp; the freshly assigned
    -- cooler_power (written twice below) is the python local's value
    if 1/10 < |c.cooler_temp - c.sensor_temp| then
      { c with
        cooler_power := min 100 (max 0 ⌊|c.cooler_temp - c.sensor_temp| * 10⌋)
        sensor_temp := c.sensor_temp +
          qsign (c.cooler_temp - c.sensor_temp) *
            ((min 100 (max 0 ⌊|c.cooler_temp - c.sensor_temp| * 10⌋) : ℤ) : ℚ) * (1/100) }
    else
      { c with cooler_power := 10, sensor_temp := c.cooler_temp }
  else
    if 1/10 < |c.sensor_temp - 20| then
      { c with cooler_power := 0
               sensor_temp := c.sensor_temp + (20 - c.sensor_temp) * (1/20) }
    else
      { c with cooler_power := 0 }

/-- `AdvancedCamera.start_exposure`: rejected (with no mutation) while an
exposure is in progress; otherwise records the job, resets
`image_ready`, and spawns the exposure thread, which immediately emits
`EXPOSURE_STARTED`. -/
def start_exposure (c : AdvancedCamera) (t : ℚ) (is_light : Bool) :
    Bool × AdvancedCamera :=
  if c.is_exposing then
    (false, c)
  else
    (true, { c with
      exposure_time := t
      is_exposing := true
      image_ready := false
      prop_exposing := true
      prop_image_ready := false
      phase := .exposing t is_light 0
      events := c.events ++ [.exposureStarted t] })

/-- `AdvancedCamera.abort_exposure`: fails when no exposure is in
progress; otherwise immediately clears `is_exposing` and the
`"exposing"` property and emits one `EXPOSURE_ABORTED` event.  The
exposure thread itself exits at its next loop check. -/
def abort_exposure (c : AdvancedCamera) : Bool × AdvancedCamera :=
  if c.is_exposing then
    (true, { c with
      is_exposing := false
      prop_exposing := false
      events := c.events ++ [.exposureAborted c.exposure_time] })
  else
    (false, c)

/-- One 0.5-unit scheduling tick of the `exposure_process` thread.
In the progress loop the thread checks `is_exposing and elapsed <
exposure_time`; while it holds it emits a progress event and sleeps 0.5.
If `is_exposing` was cleared (abort) the thread returns.  When the
duration elapses it emits `READING_OUT` and sleeps the fixed 1.0-unit
readout (the transition tick covers the first 0.5 of that sleep).  When
the readout sleep ends, it generates the image, clears `is_exposing`,
sets `image_ready`, writes both properties and emits
`EXPOSURE_COMPLETE` with the configured image size. -/
def expStep (c : AdvancedCamera) : AdvancedCamera :=
  match c.phase with
  | .idle => c
  | .exposing d l e =>
    if c.is_exposing then
      if e < d then
        { c with phase := .exposing d l (e + 1/2)
                 events := c.events ++ [.exposureProgress (e / d) e (d - e)] }
      else
        { c with phase := .readingOut d l (1/2)
                 events := c.events ++ [.readingOut] }
    else
      { c with phase := .idle }
  | .readingOut d l r =>
    if 1/2 < r then
      { c with phase := .readingOut d l (r - 1/2) }
    else
      { c with phase := .idle
               is_exposing := false
               image_ready := true
               image_data := true
               prop_exposing := false
               prop_image_ready := true
               events := c.events ++ [.exposureComplete d l c.width c.height] }

/-- `AdvancedCamera.set_cooler`: stores the enabled flag, clamps a
supplied target temperature with `max(-30, min(50, temperature))`
(an absent temperature leaves the target unchanged), emits a
`COOLER_CHANGED` event, and returns True. -/
def set_cooler (c : AdvancedCamera) (enabled : Bool) (temperature : Option ℚ) :
    Bool × AdvancedCamera :=
  let newTemp := match temperature with
    | some t => max (-30) (min 50 t)
    | none => c.cooler_temp
  (true, { c with
    cooler_enabled := enabled
    cooler_temp := newTemp
    events := c.events ++ [.coolerChanged enabled c.cooler_enabled newTemp c.cooler_temp] })

/-- `AdvancedCamera.stop`: clears `running` (the update loop observes
this at its next 1.0-unit poll, inside the 2.0-unit join), then joins
the exposure thread for up to 2.0 units — during which that thread,
which polls `is_exposing` but never `running`, keeps advancing (up to 4
half-ticks) — then clears the `"connected"` property.  The method body
contains no `return` and no `raise`: its python return value is always
`None`, so no join-timeout outcome reaches the caller (see
`stop_result`). -/
def stop (c : AdvancedCamera) : AdvancedCamera :=
  let c2 := expStep^[4] { c with running := false }
  { c2 with prop_connected := false }

/-- The value `AdvancedCamera.stop` returns to its caller, with `some`
an error indication: the method body has no `return` and no `raise`
statement, so the caller always receives `None`. -/
def stop_result (_ : AdvancedCamera) : Option String := none

/-- The exposure background thread is still alive (its control state has
not returned). -/
def threadAlive (c : AdvancedCamera) : Bool :=
  c.phase != .idle

/-- `AdvancedCamera.handle_start_exposure`.  A missing `duration` yields
an ERROR response; otherwise `float(params["duration"])` runs — raising
`ValueError` (modelled as `Except.error`) on a non-numeric string — and
`start_exposure` decides between SUCCESS and the busy ERROR. -/
def handle_start_exposure (params : Params) (c : AdvancedCamera) :
    Except String (Response × AdvancedCamera) :=
  match lookupParam params "duration" with
  | none => .ok (⟨.ERROR, "Missing required parameter: duration"⟩, c)
  | some v =>
    match pyFloat v with
    | none => .error "ValueError: could not convert string to float"
    | some duration =>
      let is_light := ((lookupParam params "light").map pyTruthy).getD true
      let r := start_exposure c duration is_light
      if r.1 then
        .ok (⟨.SUCCESS, ""⟩, r.2)
      else
        .ok (⟨.ERROR, "Failed to start exposure, camera busy"⟩, r.2)

/-- `AdvancedCamera.handle_abort_exposure`. -/
def handle_abort_exposure (c : AdvancedCamera) :
    Response × AdvancedCamera :=
  let r := abort_exposure c
  if r.1 then
    (⟨.SUCCESS, "Exposure aborted successfully"⟩, r.2)
  else
    (⟨.ERROR, "No exposure in progress to abort"⟩, r.2)

/-- `AdvancedCamera.handle_set_cooler`.  A missing `enabled` yields an
ERROR response; a present but non-numeric `temperature` raises from the
`max`/`min` comparison (modelled as `Except.error`). -/
def handle_set_cooler (params : Params) (c : AdvancedCamera) :
    Except String (Response × AdvancedCamera) :=
  match lookupParam params "enabled" with
  | none => .ok (⟨.ERROR, "Missing required parameter: enabled"⟩, c)
  | some ev =>
    let enabled := pyTruthy ev
    match lookupParam params "temperature" with
    | none => .ok (⟨.SUCCESS, ""⟩, (set_cooler c enabled none).2)
    | some tv =>
      match pyFloat tv with
      | none => .error "TypeError: comparison not supported"
      | some t => .ok (⟨.SUCCESS, ""⟩, (set_cooler c enabled (some t)).2)

/-- `AdvancedCamera.handle_get_image`: ERROR `"No image available"`
unless `image_ready` and image data are present; in either case the
handler only reads the camera state (the returned state is the input). -/
def handle_get_image (c : AdvancedCamera) : Response × AdvancedCamera :=
  if c.image_ready && c.image_data then
    (⟨.SUCCESS, ""⟩, c)
  else
    (⟨.ERROR, "No image available"⟩, c)

end AdvancedCamera

/-- Number of `EXPOSURE_ABORTED` events in a trace. -/
def countAborted (es : List Event) : ℕ :=
  (es.filter fun e => match e with | .exposureAborted _ => true | _ => false).length

/-- Number of `EXPOSURE_COMPLETE` events in a trace. -/
def countComplete (es : List Event) : ℕ :=
  (es.filter fun e => match e with | .exposureComplete _ _ _ _ => true | _ => false).length

/-- Number of `READING_OUT` events in a trace. -/
def countReadout (es : List Event) : ℕ :=
  (es.filter fun e => match e with | .readingOut => true | _ => false).length

/-- The `EXPOSURE_COMPLETE` events of a trace, payloads included. -/
def completeEvents (es : List Event) : List Event :=
  es.filter fun e => match e with | .exposureComplete _ _ _ _ => true | _ => false

/-- State of a `PiGuider` instance (`guider_example.py`): the custom
dither sequence and its cursor. -/
structure PiGuider where
  dither_sequence : List ℚ
  dither_index : ℕ
deriving DecidableEq, Repr

namespace PiGuider

/-- `PiGuider.__init__`: `dither_sequence = [1.5, 2.0, 2.5, 2.0, 1.5]`,
`dither_index = 0`. -/
def init : PiGuider where
  dither_sequence := [3/2, 2, 5/2, 2, 3/2]
  dither_index := 0

/-- `PiGuider.auto_dither`: reads the amount at the cursor, advances the
cursor circularly (`(i + 1) % len`), and passes the amount to the base
class `dither` call (external collaborator).  Returns the amount used
and the new state. -/
def auto_dither (g : PiGuider) : ℚ × PiGuider :=
  let amount := g.dither_sequence.getD g.dither_index 0
  (amount, { g with dither_index := (g.dither_index + 1) % g.dither_sequence.length })

/-- The cursor positions used by `n` consecutive `auto_dither` calls. -/
def ditherIndexTrace (g : PiGuider) : ℕ → List ℕ
  | 0 => []
  | n + 1 => g.dither_index :: ditherIndexTrace (auto_dither g).2 n

end PiGuider

/-- State of a `MyCustomSwitch` instance (`custom_switch.py`): the
`running` flag controlling the temperature thread and the simulated
temperature. -/
structure MyCustomSwitch where
  running : Bool
  temperature : ℚ
deriving DecidableEq, Repr

namespace MyCustomSwitch

/-- `MyCustomSwitch.__init__` (thread not yet spawned, temperature 20.0). -/
def init : MyCustomSwitch where
  running := false
  temperature := 20

/-- `MyCustomSwitch.stop`: clears `running`, joins the temperature thread
(which polls `running` each 2.0-unit tick and exits), and calls the base
class `stop`.  The body has no `return` and no `raise`: the caller
always receives `None`. -/
def stop (s : MyCustomSwitch) : MyCustomSwitch :=
  { s with running := false }

end MyCustomSwitch

/-- State of a `CustomTelescope` instance (`custom_telescope.py`) as far
as `handle_calculate_field` reads it: the `"ra"`/`"dec"` properties
maintained by the base class. -/
structure CustomTelescope where
  ra : ℚ
  dec : ℚ
deriving DecidableEq, Repr

namespace CustomTelescope

/-- `CustomTelescope.handle_calculate_field`.  The handler starts with
`params = cmd["parameters"]`, raising `KeyError` when the command has no
parameter map (modelled as `Except.error` on `none`); field-of-view
parameters default to 1.0 and 0.75; `rand` stands for the
`np.random.random()` draw in the star count.  On the normal path the
response status is SUCCESS (there is no validation branch). -/
def handle_calculate_field (cmdParams : Option Params) (_rand : ℚ)
    (_tel : CustomTelescope) : Except String Response :=
  match cmdParams with
  | none => .error "KeyError: parameters"
  | some params =>
    let getFov (key : String) (dflt : ℚ) : Except String ℚ :=
      match lookupParam params key with
      | none => .ok dflt
      | some v =>
        match pyFloat v with
        | none => .error "TypeError: unsupported operand"
        | some q => .ok q
    match getFov "fov_width" 1, getFov "fov_height" (3/4) with
    | .ok _w, .ok _h => .ok ⟨.SUCCESS, ""⟩
    | .error e, _ => .error e
    | _, .error e => .error e

end CustomTelescope

/-! ## Shared states and helper lemmas -/

open AdvancedCamera

/-- A camera after `start()`. -/
def startedCam : AdvancedCamera := (AdvancedCamera.start AdvancedCamera.init).2

/-- `startedCam` right after `start_exposure(2.0, is_light=True)`. -/
def expCam : AdvancedCamera := (startedCam.start_exposure 2 true).2

/-- `expCam` one exposure tick later (mid-exposure, elapsed 0.5). -/
def midExpCam : AdvancedCamera := expStep expCam

/-- A camera busy with an exposure, used to exercise the busy rejection. -/
def busyCam : AdvancedCamera := expCam

/-- `startedCam` after `start_exposure(10.0, is_light=True)`: the exposure
and readout (11.0 units) outlast the 2.0-unit join timeout of `stop`. -/
def longCam : AdvancedCamera := (startedCam.start_exposure 10 true).2

/-- `startedCam` after `set_cooler(True, -10.0)`: cooling enabled with
target −10 and sensor still at the initial 20.0. -/
def coolCam : AdvancedCamera := (set_cooler startedCam true (some (-10))).2

lemma expStep_idle {c : AdvancedCamera} (h : c.phase = .idle) : expStep c = c := by
  unfold expStep
  rw [h]

lemma expStep_eq_exposing {c : AdvancedCamera} {d : ℚ} {l : Bool} {e : ℚ}
    (h : c.phase = .exposing d l e) :
    expStep c =
      if c.is_exposing then
        if e < d then
          { c with phase := .exposing d l (e + 1/2)
                   events := c.events ++ [.exposureProgress (e / d) e (d - e)] }
        else
          { c with phase := .readingOut d l (1/2)
                   events := c.events ++ [.readingOut] }
      else
        { c with phase := .idle } := by
  unfold expStep
  rw [h]

lemma expStep_eq_readingOut {c : AdvancedCamera} {d : ℚ} {l : Bool} {r : ℚ}
    (h : c.phase = .readingOut d l r) :
    expStep c =
      if 1/2 < r then
        { c with phase := .readingOut d l (r - 1/2) }
      else
        { c with phase := .idle, is_exposing := false, image_ready := true,
                 image_data := true, prop_exposing := false, prop_image_ready := true,
                 events := c.events ++ [.exposureComplete d l c.width c.height] } := by
  unfold expStep
  rw [h]

lemma expStep_running (c : AdvancedCamera) : (expStep c).running = c.running := by
  unfold expStep
  rcases c.phase with _ | ⟨d, l, e⟩ | ⟨d, l, r⟩
  · rfl
  · dsimp only
    split
    · split <;> rfl
    · rfl
  · dsimp only
    split <;> rfl

lemma expStep_prop_connected (c : AdvancedCamera) :
    (expStep c).prop_connected = c.prop_connected := by
  unfold expStep
  rcases c.phase with _ | ⟨d, l, e⟩ | ⟨d, l, r⟩
  · rfl
  · dsimp only
    split
    · split <;> rfl
    · rfl
  · dsimp only
    split <;> rfl

lemma iter_expStep_running (n : ℕ) (c : AdvancedCamera) :
    (expStep^[n] c).running = c.running := by
  induction n with
  | zero => rfl
  | succ n ih => rw [Function.iterate_succ_apply', expStep_running, ih]

lemma iter_expStep_prop_connected (n : ℕ) (c : AdvancedCamera) :
    (expStep^[n] c).prop_connected = c.prop_connected := by
  induction n with
  | zero => rfl
  | succ n ih => rw [Function.iterate_succ_apply', expStep_prop_connected, ih]

/-- An exposure thread that will do no further work: either it has
returned, or it is in the progress loop with the abort flag observed
(`is_exposing` cleared), about to return. -/
def Dormant (c : AdvancedCamera) : Prop :=
  c.is_exposing = false ∧
    (c.phase = .idle ∨ ∃ d l e, c.phase = .exposing d l e)

lemma dormant_step {c : AdvancedCamera} (h : Dormant c) :
    (expStep c).events = c.events ∧ (expStep c).is_exposing = false ∧
    (expStep c).image_ready = c.image_ready ∧
    (expStep c).image_data = c.image_data ∧ Dormant (expStep c) := by
  obtain ⟨hx, hph⟩ := h
  rcases hph with h1 | ⟨d, l, e, h1⟩ <;>
    simp [expStep, Dormant, h1, hx]

lemma dormant_iter (n : ℕ) {c : AdvancedCamera} (h : Dormant c) :
    (expStep^[n] c).events = c.events ∧ (expStep^[n] c).is_exposing = false ∧
    (expStep^[n] c).image_ready = c.image_ready ∧
    (expStep^[n] c).image_data = c.image_data ∧ Dormant (expStep^[n] c) := by
  induction n with
  | zero => exact ⟨rfl, h.1, rfl, rfl, h⟩
  | succ n ih =>
    obtain ⟨he, hx, hr, hd, hdor⟩ := ih
    have hs := dormant_step hdor
    rw [Function.iterate_succ_apply']
    exact ⟨hs.1.trans he, hs.2.1, hs.2.2.1.trans hr, hs.2.2.2.1.trans hd, hs.2.2.2.2⟩

/-! ## Claims -/

/-- C1: for every camera, calling `start_exposure` while an exposure is in
progress (`is_exposing`, which covers both the EXPOSING loop and the
READING_OUT sleep) returns failure and leaves the whole camera state —
`is_exposing`, `exposure_time`, `image_ready` and all properties —
exactly as it was, and the START_EXPOSURE command handler answers with an
ERROR response on the unchanged state. -/
theorem claim_C1 (c : AdvancedCamera) (t : ℚ) (l : Bool) (params : Params)
    (hx : c.is_exposing = true)
    (hdur : lookupParam params "duration" = some (.num t)) :
    start_exposure c t l = (false, c) ∧
    handle_start_exposure params c =
      .ok (⟨.ERROR, "Failed to start exposure, camera busy"⟩, c) := by
  constructor
  · simp [start_exposure, hx]
  · simp [handle_start_exposure, hdur, pyFloat, start_exposure, hx]

theorem claim_C1_witness :
    start_exposure busyCam 5 true = (false, busyCam) ∧
    handle_start_exposure [("duration", .num 5)] busyCam =
      .ok (⟨.ERROR, "Failed to start exposure, camera busy"⟩, busyCam) :=
  claim_C1 busyCam 5 true [("duration", .num 5)] (by decide) (by decide)

/-- C2: for every camera in the EXPOSING state (exposure loop running,
`is_exposing` true, no image yet), `abort_exposure` succeeds and
immediately — within the same call, hence within one tick — clears
`is_exposing` and the `"exposing"` property, emits exactly one
`EXPOSURE_ABORTED` event, and however far the exposure thread then runs,
no `EXPOSURE_COMPLETE` and no `READING_OUT` event is ever emitted for the
aborted job, no image is produced, and `image_ready` stays false. -/
theorem claim_C2 (c : AdvancedCamera) (d : ℚ) (l : Bool) (e : ℚ)
    (hph : c.phase = .exposing d l e) (hx : c.is_exposing = true)
    (hir : c.image_ready = false) :
    (abort_exposure c).1 = true ∧
    (abort_exposure c).2.is_exposing = false ∧
    (abort_exposure c).2.prop_exposing = false ∧
    ∀ n : ℕ,
      countAborted (expStep^[n] (abort_exposure c).2).events
        = countAborted c.events + 1 ∧
      countComplete (expStep^[n] (abort_exposure c).2).events
        = countComplete c.events ∧
      countReadout (expStep^[n] (abort_exposure c).2).events
        = countReadout c.events ∧
      (expStep^[n] (abort_exposure c).2).is_exposing = false ∧
      (expStep^[n] (abort_exposure c).2).image_ready = false ∧
      (expStep^[n] (abort_exposure c).2).image_data = c.image_data := by
  have habort : (abort_exposure c).2 =
      { c with is_exposing := false, prop_exposing := false,
               events := c.events ++ [.exposureAborted c.exposure_time] } := by
    simp [abort_exposure, hx]
  refine ⟨by simp [abort_exposure, hx], by rw [habort], by rw [habort], ?_⟩
  intro n
  have hdor : Dormant (abort_exposure c).2 := by
    rw [habort]
    exact ⟨rfl, Or.inr ⟨d, l, e, hph⟩⟩
  obtain ⟨he, hxe, hr, hd, _⟩ := dormant_iter n hdor
  have hev : (abort_exposure c).2.events
      = c.events ++ [.exposureAborted c.exposure_time] := by rw [habort]
  have hir2 : (abort_exposure c).2.image_ready = c.image_ready := by rw [habort]
  have hid2 : (abort_exposure c).2.image_data = c.image_data := by rw [habort]
  refine ⟨?_, ?_, ?_, hxe, ?_, ?_⟩
  · rw [he, hev]
    simp [countAborted, List.filter_append]
  · rw [he, hev]
    simp [countComplete, List.filter_append]
  · rw [he, hev]
    simp [countReadout, List.filter_append]
  · rw [hr, hir2, hir]
  · rw [hd, hid2]

theorem claim_C2_witness :
    (abort_exposure midExpCam).1 = true ∧
    (abort_exposure midExpCam).2.is_exposing = false ∧
    (abort_exposure midExpCam).2.prop_exposing = false ∧
    countAborted (expStep^[3] (abort_exposure midExpCam).2).events
      = countAborted midExpCam.events + 1 ∧
    countComplete (expStep^[3] (abort_exposure midExpCam).2).events
      = countComplete midExpCam.events ∧
    countReadout (expStep^[3] (abort_exposure midExpCam).2).events
      = countReadout midExpCam.events ∧
    (expStep^[3] (abort_exposure midExpCam).2).image_ready = false := by
  have h := claim_C2 midExpCam 2 true (1/2) (by with_unfolding_all decide)
    (by with_unfolding_all decide) (by with_unfolding_all decide)
  exact ⟨h.1, h.2.1, h.2.2.1, (h.2.2.2 3).1, (h.2.2.2 3).2.1,
    (h.2.2.2 3).2.2.1, (h.2.2.2 3).2.2.2.2.1⟩

/-- C3: on a fresh IDLE camera, `start_exposure(2.0, is_light=True)`
succeeds, and after 3.0 time units (six 0.5-unit exposure-thread ticks:
four progress sleeps, the readout transition and the rest of the fixed
1.0-unit readout) the job is complete: `is_exposing` is false, the
`image_ready` flag and property are true, and exactly one
`EXPOSURE_COMPLETE` event was emitted, whose `image_size` payload equals
the camera's configured width and height; every later tick leaves the
state unchanged, so the same holds after any elapsed time ≥ 3.0. -/
theorem claim_C3 :
    (startedCam.start_exposure 2 true).1 = true ∧
    (expStep^[6] expCam).is_exposing = false ∧
    (expStep^[6] expCam).image_ready = true ∧
    (expStep^[6] expCam).prop_image_ready = true ∧
    completeEvents (expStep^[6] expCam).events
      = [.exposureComplete 2 true expCam.width expCam.height] ∧
    ∀ n : ℕ, 6 ≤ n → expStep^[n] expCam = expStep^[6] expCam := by
  refine ⟨by with_unfolding_all decide, by with_unfolding_all decide,
    by with_unfolding_all decide, by with_unfolding_all decide,
    by with_unfolding_all decide, ?_⟩
  intro n hn
  obtain ⟨k, rfl⟩ := Nat.exists_eq_add_of_le hn
  rw [add_comm, Function.iterate_add_apply]
  exact Function.iterate_fixed (by with_unfolding_all decide) k

theorem claim_C3_witness :
    expStep^[9] expCam = expStep^[6] expCam :=
  claim_C3.2.2.2.2.2 9 (by norm_num)

/-- C6: for a guider whose dither sequence has 5 elements and whose
cursor starts at 0, seven consecutive `auto_dither` calls use the
sequence indices 0,1,2,3,4,0,1 in that order, and in general each call
advances the cursor by one modulo the sequence length. -/
theorem claim_C6 (g : PiGuider) (h5 : g.dither_sequence.length = 5)
    (h0 : g.dither_index = 0) :
    PiGuider.ditherIndexTrace g 7 = [0, 1, 2, 3, 4, 0, 1] ∧
    ∀ g2 : PiGuider, ((PiGuider.auto_dither g2).2).dither_index =
      (g2.dither_index + 1) % g2.dither_sequence.length := by
  constructor
  · simp [PiGuider.ditherIndexTrace, PiGuider.auto_dither, h5, h0]
  · intro g2
    rfl

theorem claim_C6_witness :
    PiGuider.ditherIndexTrace PiGuider.init 7 = [0, 1, 2, 3, 4, 0, 1] ∧
    ((PiGuider.auto_dither PiGuider.init).2).dither_index =
      (PiGuider.init.dither_index + 1) % PiGuider.init.dither_sequence.length :=
  ⟨(claim_C6 PiGuider.init rfl rfl).1,
   (claim_C6 PiGuider.init rfl rfl).2 PiGuider.init⟩

lemma record_update_self {c : AdvancedCamera} (hr : c.running = false)
    (hp : c.prop_connected = false) :
    ({ c with running := false, prop_connected := false } : AdvancedCamera) = c := by
  cases c
  simp_all

lemma stop_running (c : AdvancedCamera) : (AdvancedCamera.stop c).running = false := by
  unfold AdvancedCamera.stop
  simp [iter_expStep_running, expStep_running]

lemma stop_prop_connected (c : AdvancedCamera) :
    (AdvancedCamera.stop c).prop_connected = false := by
  unfold AdvancedCamera.stop
  simp

lemma stop_fixed {c : AdvancedCamera} (hr : c.running = false)
    (hp : c.prop_connected = false) (hph : c.phase = .idle) :
    AdvancedCamera.stop c = c := by
  unfold AdvancedCamera.stop
  have h1 : ({ c with running := false } : AdvancedCamera) = c := by
    cases c
    simp_all
  rw [h1, Function.iterate_fixed (expStep_idle hph) 4]
  cases c
  simp_all

/-- C8: `stop()` is idempotent and cannot fail: it always leaves the
device stopped (`running` false, `"connected"` property false), a second
`stop()` on a device whose background work has wound down is the exact
identity, the python return value carries no error on either call
(`stop_result` is always `None`), and the switch device's `stop` is
likewise idempotent. -/
theorem claim_C8 :
    (∀ c : AdvancedCamera,
      (AdvancedCamera.stop c).running = false ∧
      (AdvancedCamera.stop c).prop_connected = false ∧
      (AdvancedCamera.stop (AdvancedCamera.stop c)).running = false ∧
      (AdvancedCamera.stop (AdvancedCamera.stop c)).prop_connected = false ∧
      stop_result c = none ∧ stop_result (AdvancedCamera.stop c) = none) ∧
    (∀ c : AdvancedCamera, (AdvancedCamera.stop c).phase = .idle →
      AdvancedCamera.stop (AdvancedCamera.stop c) = AdvancedCamera.stop c) ∧
    (∀ s : MyCustomSwitch,
      MyCustomSwitch.stop (MyCustomSwitch.stop s) = MyCustomSwitch.stop s ∧
      (MyCustomSwitch.stop s).running = false) := by
  refine ⟨?_, ?_, ?_⟩
  · intro c
    exact ⟨stop_running c, stop_prop_connected c, stop_running _,
      stop_prop_connected _, rfl, rfl⟩
  · intro c h
    exact stop_fixed (stop_running c) (stop_prop_connected c) h
  · intro s
    exact ⟨rfl, rfl⟩

theorem claim_C8_witness :
    AdvancedCamera.stop (AdvancedCamera.stop AdvancedCamera.init)
      = AdvancedCamera.stop AdvancedCamera.init ∧
    (AdvancedCamera.stop AdvancedCamera.init).running = false ∧
    (AdvancedCamera.stop AdvancedCamera.init).prop_connected = false :=
  ⟨claim_C8.2.1 AdvancedCamera.init (by with_unfolding_all decide),
   (claim_C8.1 AdvancedCamera.init).1, (claim_C8.1 AdvancedCamera.init).2.1⟩

/-- C9: evaluation of `stop()` at a camera whose exposure job
(10.0 units plus the 1.0-unit readout) outlasts the 2.0-unit join
timeout.  After `stop` returns, the exposure thread is still alive and
still owns the job (`is_exposing` remains true, the thread is mid-loop
at elapsed 2.0), yet the caller receives plain `None`
(`stop_result`): the join timeout is silently swallowed, not surfaced,
contradicting the claim and the spec's cancellation contract. -/
theorem claim_C9_bug :
    stop_result longCam = none ∧
    (AdvancedCamera.stop longCam).is_exposing = true ∧
    (AdvancedCamera.stop longCam).phase = .exposing 10 true 2 ∧
    threadAlive (AdvancedCamera.stop longCam) = true := by
  refine ⟨rfl, ?_, ?_, ?_⟩ <;> with_unfolding_all decide

/-- C10: the GET_IMAGE handler answers SUCCESS exactly when `image_ready`
is set and image data is stored, answers ERROR `"No image available"`
otherwise, and never mutates the camera; a successful `start_exposure`
clears `image_ready` (so GET_IMAGE reports ERROR from that moment on),
and `image_ready` can only turn true again at the exposure-thread step
that emits the completing `EXPOSURE_COMPLETE` event. -/
theorem claim_C10 :
    (∀ c : AdvancedCamera,
      ((handle_get_image c).1.status = .SUCCESS ↔
        (c.image_ready = true ∧ c.image_data = true)) ∧
      (handle_get_image c).2 = c) ∧
    (∀ c : AdvancedCamera, ¬(c.image_ready = true ∧ c.image_data = true) →
      (handle_get_image c).1 = ⟨.ERROR, "No image available"⟩) ∧
    (∀ (c : AdvancedCamera) (t : ℚ) (l : Bool),
      (start_exposure c t l).1 = true →
        (start_exposure c t l).2.image_ready = false ∧
        (handle_get_image (start_exposure c t l).2).1
          = ⟨.ERROR, "No image available"⟩) ∧
    (∀ c : AdvancedCamera, c.image_ready = false →
      (expStep c).image_ready = true →
      countComplete (expStep c).events = countComplete c.events + 1) := by
  refine ⟨?_, ?_, ?_, ?_⟩
  · intro c
    rcases h1 : c.image_ready <;> rcases h2 : c.image_data <;>
      simp [handle_get_image, h1, h2]
  · intro c h
    rcases h1 : c.image_ready
    · rcases h2 : c.image_data <;> simp [handle_get_image, h1, h2]
    · rcases h2 : c.image_data
      · simp [handle_get_image, h1, h2]
      · exact absurd ⟨h1, h2⟩ h
  · intro c t l h
    rcases hx : c.is_exposing
    · simp [start_exposure, hx, handle_get_image]
    · simp [start_exposure, hx] at h
  · intro c h1 h2
    rcases hph : c.phase with _ | ⟨d, l, e⟩ | ⟨d, l, r⟩
    · rw [expStep_idle hph] at h2
      simp_all
    · rw [expStep_eq_exposing hph] at h2
      split_ifs at h2 <;> simp_all
    · rw [expStep_eq_readingOut hph] at h2 ⊢
      split_ifs at h2 ⊢ <;> simp_all [countComplete, List.filter_append]

theorem claim_C10_witness :
    (handle_get_image AdvancedCamera.init).1 = ⟨.ERROR, "No image available"⟩ ∧
    (start_exposure startedCam 2 true).2.image_ready = false ∧
    countComplete (expStep (expStep^[5] expCam)).events
      = countComplete (expStep^[5] expCam).events + 1 := by
  refine ⟨claim_C10.2.1 AdvancedCamera.init (by with_unfolding_all decide),
    (claim_C10.2.2.1 startedCam 2 true (by with_unfolding_all decide)).1,
    claim_C10.2.2.2 (expStep^[5] expCam) (by with_unfolding_all decide)
      (by with_unfolding_all decide)⟩

lemma update_tick_static (c : AdvancedCamera) :
    (update_tick c).cooler_temp = c.cooler_temp ∧
    (update_tick c).cooler_enabled = c.cooler_enabled := by
  unfold update_tick
  split_ifs <;> exact ⟨rfl, rfl⟩

lemma update_tick_above {c : AdvancedCamera} (hE : c.cooler_enabled = true)
    (hs : c.cooler_temp < c.sensor_temp)
    (hband : 1/10 < |c.cooler_temp - c.sensor_temp|) :
    (update_tick c).sensor_temp < c.sensor_temp ∧
    c.cooler_temp ≤ (update_tick c).sensor_temp := by
  have habs : |c.cooler_temp - c.sensor_temp| = c.sensor_temp - c.cooler_temp := by
    rw [abs_sub_comm]
    exact abs_of_nonneg (by linarith)
  have hg1 : 1/10 < c.sensor_temp - c.cooler_temp := by
    rw [habs] at hband
    exact hband
  have hsign : qsign (c.cooler_temp - c.sensor_temp) = -1 := by
    unfold qsign
    rw [if_neg (by linarith), if_pos (by linarith)]
  have hstemp : (update_tick c).sensor_temp = c.sensor_temp +
      (-1) * ((min 100 (max 0 ⌊(c.sensor_temp - c.cooler_temp) * 10⌋) : ℤ) : ℚ) * (1/100) := by
    unfold update_tick
    split_ifs
    rw [habs, hsign]
  have hf1 : (1 : ℤ) ≤ ⌊(c.sensor_temp - c.cooler_temp) * 10⌋ := by
    rw [Int.le_floor]
    push_cast
    linarith
  have hmax : max 0 ⌊(c.sensor_temp - c.cooler_temp) * 10⌋
      = ⌊(c.sensor_temp - c.cooler_temp) * 10⌋ :=
    max_eq_right (le_trans zero_le_one hf1)
  have hp1 : (1 : ℚ) ≤
      ((min 100 (max 0 ⌊(c.sensor_temp - c.cooler_temp) * 10⌋) : ℤ) : ℚ) := by
    rw [hmax]
    exact_mod_cast le_min (by norm_num) hf1
  have hple : ((min 100 (max 0 ⌊(c.sensor_temp - c.cooler_temp) * 10⌋) : ℤ) : ℚ)
      ≤ (c.sensor_temp - c.cooler_temp) * 10 := by
    rw [hmax]
    refine le_trans ?_ (Int.floor_le _)
    exact_mod_cast min_le_right _ _
  constructor
  · rw [hstemp]
    linarith
  · rw [hstemp]
    linarith

lemma update_tick_band {c : AdvancedCamera} (hE : c.cooler_enabled = true)
    (hband : ¬(1/10 < |c.cooler_temp - c.sensor_temp|)) :
    (update_tick c).sensor_temp = c.cooler_temp ∧
    (update_tick c).cooler_power = 10 := by
  unfold update_tick
  split_ifs
  exact ⟨rfl, rfl⟩

/-- A camera holding its cooling target: the steady state reached at the
first tick inside the 0.1 band. -/
def Holding (c : AdvancedCamera) : Prop :=
  c.cooler_enabled = true ∧ c.sensor_temp = c.cooler_temp ∧ c.cooler_power = 10

lemma holding_step {c : AdvancedCamera} (h : Holding c) : Holding (update_tick c) := by
  obtain ⟨hE, hs, _⟩ := h
  have hband : ¬(1/10 < |c.cooler_temp - c.sensor_temp|) := by
    rw [hs, sub_self, abs_zero]
    norm_num
  obtain ⟨h1, h2⟩ := update_tick_band hE hband
  obtain ⟨h3, h4⟩ := update_tick_static c
  exact ⟨h4.trans hE, by rw [h1, h3], h2⟩

lemma holding_iter (n : ℕ) {c : AdvancedCamera} (h : Holding c) :
    Holding (update_tick^[n] c) := by
  induction n with
  | zero => exact h
  | succ n ih => rw [Function.iterate_succ_apply']; exact holding_step ih

lemma coolTraj (n : ℕ) :
    (update_tick^[n] coolCam).cooler_enabled = true ∧
    (update_tick^[n] coolCam).cooler_temp = -10 ∧
    -10 ≤ (update_tick^[n] coolCam).sensor_temp := by
  induction n with
  | zero =>
    exact ⟨by with_unfolding_all decide, by with_unfolding_all decide,
      by with_unfolding_all decide⟩
  | succ n ih =>
    obtain ⟨hE, hT, hs⟩ := ih
    rw [Function.iterate_succ_apply']
    obtain ⟨hT2, hE2⟩ := update_tick_static (update_tick^[n] coolCam)
    refine ⟨hE2.trans hE, hT2.trans hT, ?_⟩
    by_cases hband : 1/10 <
        |(update_tick^[n] coolCam).cooler_temp - (update_tick^[n] coolCam).sensor_temp|
    · have hne : (update_tick^[n] coolCam).cooler_temp
          < (update_tick^[n] coolCam).sensor_temp := by
        rcases lt_or_eq_of_le (hT ▸ hs) with h | h
        · exact hT ▸ h
        · rw [← h, sub_self, abs_zero] at hband
          norm_num at hband
      have := (update_tick_above hE hne hband).2
      rw [hT] at this
      exact this
    · have := (update_tick_band hE hband).1
      rw [this, hT]

/-- C4: from the state reached by enabling the cooler with target −10.0
on a fresh camera (sensor at 20.0), every cooling tick taken outside the
0.1 band strictly decreases the sensor temperature; the band is indeed
reached (at tick 69); and from any state inside the band every
subsequent tick reports the nonzero holding drive power 10. -/
theorem claim_C4 :
    (∀ n : ℕ,
      (1/10 < |(update_tick^[n] coolCam).sensor_temp - (-10)| →
        (update_tick^[n+1] coolCam).sensor_temp
          < (update_tick^[n] coolCam).sensor_temp) ∧
      (|(update_tick^[n] coolCam).sensor_temp - (-10)| ≤ 1/10 →
        ∀ k : ℕ, 1 ≤ k →
          (update_tick^[k] (update_tick^[n] coolCam)).cooler_power = 10)) ∧
    (∃ N : ℕ, |(update_tick^[N] coolCam).sensor_temp - (-10)| ≤ 1/10) := by
  constructor
  · intro n
    obtain ⟨hE, hT, hs⟩ := coolTraj n
    constructor
    · intro h
      rw [Function.iterate_succ_apply']
      have hband : 1/10 <
          |(update_tick^[n] coolCam).cooler_temp - (update_tick^[n] coolCam).sensor_temp| := by
        rw [hT, abs_sub_comm]
        exact h
      have hne : (update_tick^[n] coolCam).cooler_temp
          < (update_tick^[n] coolCam).sensor_temp := by
        rw [hT]
        rcases lt_or_eq_of_le hs with h2 | h2
        · exact h2
        · rw [← h2, neg_sub_neg, sub_self] at h
          norm_num at h
      exact (update_tick_above hE hne hband).1
    · intro h k hk
      have hband : ¬(1/10 <
          |(update_tick^[n] coolCam).cooler_temp - (update_tick^[n] coolCam).sensor_temp|) := by
        rw [hT, abs_sub_comm, not_lt]
        exact h
      obtain ⟨hb1, hb2⟩ := update_tick_band hE hband
      obtain ⟨hT2, hE2⟩ := update_tick_static (update_tick^[n] coolCam)
      have hhold : Holding (update_tick (update_tick^[n] coolCam)) :=
        ⟨hE2.trans hE, by rw [hb1, hT2], hb2⟩
      obtain ⟨j, rfl⟩ := Nat.exists_eq_add_of_le hk
      rw [add_comm, Function.iterate_add_apply, Function.iterate_one]
      exact (holding_iter j hhold).2.2
  · exact ⟨69, by with_unfolding_all decide⟩

theorem claim_C4_witness :
    ((update_tick^[0+1] coolCam).sensor_temp < (update_tick^[0] coolCam).sensor_temp) ∧
    ((update_tick^[1] (update_tick^[69] coolCam)).cooler_power = 10) :=
  ⟨(claim_C4.1 0).1 (by with_unfolding_all decide),
   (claim_C4.1 69).2 (by with_unfolding_all decide) 1 (le_refl 1)⟩

/-- C5: after every cooling tick, whatever the camera state, the drive
power lies in [0, 100]; after every `set_cooler` call with a supplied
target, the stored target lies in [−30, 50] whatever value the caller
supplied; a call without a target keeps an in-range target in range; and
the initial target (20.0) is in range — so the invariant holds on all
reachable states. -/
theorem claim_C5 :
    (∀ c : AdvancedCamera,
      0 ≤ (update_tick c).cooler_power ∧ (update_tick c).cooler_power ≤ 100) ∧
    (∀ (c : AdvancedCamera) (e : Bool) (t : ℚ),
      -30 ≤ (set_cooler c e (some t)).2.cooler_temp ∧
      (set_cooler c e (some t)).2.cooler_temp ≤ 50) ∧
    (∀ (c : AdvancedCamera) (e : Bool) (t : Option ℚ),
      -30 ≤ c.cooler_temp → c.cooler_temp ≤ 50 →
      -30 ≤ (set_cooler c e t).2.cooler_temp ∧
      (set_cooler c e t).2.cooler_temp ≤ 50) ∧
    (-30 ≤ AdvancedCamera.init.cooler_temp ∧ AdvancedCamera.init.cooler_temp ≤ 50) := by
  have hsome : ∀ (c : AdvancedCamera) (e : Bool) (t : ℚ),
      -30 ≤ (set_cooler c e (some t)).2.cooler_temp ∧
      (set_cooler c e (some t)).2.cooler_temp ≤ 50 := by
    intro c e t
    simp only [set_cooler]
    exact ⟨le_max_left _ _, max_le (by norm_num) (min_le_left _ _)⟩
  refine ⟨?_, hsome, ?_, ?_⟩
  · intro c
    unfold update_tick
    split_ifs
    · exact ⟨le_min (by norm_num) (le_max_left _ _), min_le_left _ _⟩
    · exact ⟨by norm_num, by norm_num⟩
    · exact ⟨le_refl 0, by norm_num⟩
    · exact ⟨le_refl 0, by norm_num⟩
  · intro c e t h1 h2
    rcases t with _ | t
    · simp only [set_cooler]
      exact ⟨h1, h2⟩
    · exact hsome c e t
  · constructor <;> with_unfolding_all decide

theorem claim_C5_witness :
    (0 ≤ (update_tick AdvancedCamera.init).cooler_power ∧
      (update_tick AdvancedCamera.init).cooler_power ≤ 100) ∧
    (-30 ≤ (set_cooler AdvancedCamera.init true (some 1000)).2.cooler_temp ∧
      (set_cooler AdvancedCamera.init true (some 1000)).2.cooler_temp ≤ 50) ∧
    (-30 ≤ (set_cooler AdvancedCamera.init false none).2.cooler_temp ∧
      (set_cooler AdvancedCamera.init false none).2.cooler_temp ≤ 50) :=
  ⟨claim_C5.1 AdvancedCamera.init,
   claim_C5.2.1 AdvancedCamera.init true 1000,
   claim_C5.2.2.1 AdvancedCamera.init false none
     (by with_unfolding_all decide) (by with_unfolding_all decide)⟩

/-- C7 counterexample: START_EXPOSURE with the non-numeric duration
`"abc"` does not produce an ERROR response — `float(params["duration"])`
raises a `ValueError` that escapes the handler, refuting the claim that
every handler turns invalid parameters into an ERROR response and never
raises. -/
theorem claim_C7_counterexample :
    handle_start_exposure [("duration", PyVal.str "abc")] AdvancedCamera.init
      = .error "ValueError: could not convert string to float" := rfl

/-- C7 (amended): a handler answers ERROR with a descriptive message and
an unchanged device state when a declared-required parameter is missing
(START_EXPOSURE without `duration`, SET_COOLER without `enabled`); but a
non-numeric `duration` makes START_EXPOSURE raise an uncaught
`ValueError`, CALCULATE_FIELD with no parameter map raises `KeyError`,
and CALCULATE_FIELD with an empty parameter map succeeds with defaulted
field-of-view values instead of reporting an error. -/
theorem claim_C7_amended :
    (∀ (params : Params) (c : AdvancedCamera),
      lookupParam params "duration" = none →
      handle_start_exposure params c
        = .ok (⟨.ERROR, "Missing required parameter: duration"⟩, c)) ∧
    (∀ (params : Params) (c : AdvancedCamera) (s : String),
      lookupParam params "duration" = some (.str s) →
      handle_start_exposure params c
        = .error "ValueError: could not convert string to float") ∧
    (∀ (params : Params) (c : AdvancedCamera),
      lookupParam params "enabled" = none →
      handle_set_cooler params c
        = .ok (⟨.ERROR, "Missing required parameter: enabled"⟩, c)) ∧
    (∀ (tel : CustomTelescope) (r : ℚ),
      CustomTelescope.handle_calculate_field none r tel
        = .error "KeyError: parameters") ∧
    (∀ (tel : CustomTelescope) (r : ℚ),
      CustomTelescope.handle_calculate_field (some []) r tel
        = .ok ⟨.SUCCESS, ""⟩) := by
  refine ⟨?_, ?_, ?_, ?_, ?_⟩
  · intro params c h
    simp [handle_start_exposure, h]
  · intro params c s h
    simp [handle_start_exposure, h, pyFloat]
  · intro params c h
    simp [handle_set_cooler, h]
  · intro tel r
    rfl
  · intro tel r
    rfl

theorem claim_C7_amended_witness :
    handle_start_exposure [] AdvancedCamera.init
      = .ok (⟨.ERROR, "Missing required parameter: duration"⟩, AdvancedCamera.init) ∧
    handle_start_exposure [("duration", PyVal.str "oops")] AdvancedCamera.init
      = .error "ValueError: could not convert string to float" ∧
    handle_set_cooler [] AdvancedCamera.init
      = .ok (⟨.ERROR, "Missing required parameter: enabled"⟩, AdvancedCamera.init) ∧
    CustomTelescope.handle_calculate_field none 0 ⟨0, 0⟩
      = .error "KeyError: parameters" ∧
    CustomTelescope.handle_calculate_field (some []) 0 ⟨0, 0⟩
      = .ok ⟨.SUCCESS, ""⟩ :=
  ⟨claim_C7_amended.1 [] AdvancedCamera.init rfl,
   claim_C7_amended.2.1 [("duration", PyVal.str "oops")] AdvancedCamera.init "oops" rfl,
   claim_C7_amended.2.2.1 [] AdvancedCamera.init rfl,
   claim_C7_amended.2.2.2.1 ⟨0, 0⟩ 0,
   claim_C7_amended.2.2.2.2 ⟨0, 0⟩ 0⟩

end Hydrogen
